import Mathlib

/-!
Verification development for the WeatherStar 4000 console renderer
(src/weatherstar: fb.h, icons.h, display.h, screenshot.h, main.c, and the
self-contained duplicate weatherstar.c).

The framebuffer is modelled as a total function from integer coordinates to
RGB colours.  Every C drawing loop writes pixel values that depend only on
the target coordinates (never on previously stored pixels), so each drawing
primitive is embedded as a pointwise update: a decidable hit predicate that
holds exactly at the coordinates the loop stores to (the loop bounds and the
clipping guards are translated literally into the predicate), together with
the value the loop stores there.

Arithmetic conventions, mirroring the C source:
 - C `int` arithmetic is modelled by ℤ (the program stays far from overflow).
 - The float interpolation expressions `top + (bot-top)*t` with
   `t = num/den` are modelled exactly over ℚ and realised as truncating
   integer division of the scaled numerator, `Int.tdiv`, which rounds toward
   zero exactly as the C casts `(int)` and `(uint8_t)` do on the in-range
   values the program produces.  At every value a theorem below depends on,
   the exact rational result is far from an integer boundary relative to the
   float rounding error of the C expression, so the model agrees with the
   float computation there.
 - The libm calls `cosf`/`sinf` inside draw_sun have no exact embedding; the
   integer ray offsets `((int)(cosf(angle)*d), (int)(sinf(angle)*d))` are
   abstracted as an explicit function parameter `trig`, about which proofs
   assume only facts guaranteed by C float semantics (`|cos|,|sin| <= 1`
   gives offsets bounded by d; `cosf 0 = 1` and `sinf 0 = 0` are exact).
-/

namespace WeatherStar

/-- Colour of one pixel: 8 bits per channel in C (rgb_t of fb.h and
weatherstar.c); channels carried as ℤ, with all program values in 0..255. -/
structure rgb where
  r : ℤ
  g : ℤ
  b : ℤ
deriving DecidableEq, Repr

/-- Framebuffer model: total function from (x, y) to colour.  The C array
fb[FB_H][FB_W] corresponds to the restriction to 0 ≤ x < 640, 0 ≤ y < 400;
out-of-range coordinates let us observe out-of-bounds stores. -/
def Fb : Type := ℤ → ℤ → rgb

/-- Framebuffer width FB_W = 640. -/
def FBW : ℤ := 640

/-- Framebuffer height FB_H = 400. -/
def FBH : ℤ := 400

/-- Bounds guard used by every clipped store in the C source:
x >= 0 && x < FB_W && y >= 0 && y < FB_H. -/
def inb (x y : ℤ) : Bool := decide (0 ≤ x ∧ x < FBW ∧ 0 ≤ y ∧ y < FBH)

/-- Pointwise update combinator: the denotation of one C drawing loop.
Pixels satisfying the hit predicate receive the value function, all other
pixels keep their previous colour. -/
def upd (c : ℤ → ℤ → Bool) (v : ℤ → ℤ → rgb) (fb : Fb) : Fb :=
  fun x y => if c x y then v x y else fb x y

/- ── colour palette (identical in fb.h and weatherstar.c) ─────────── -/

def COL_HEADER : rgb := ⟨40, 70, 170⟩
def COL_ACCENT : rgb := ⟨60, 120, 210⟩
def COL_GOLD : rgb := ⟨255, 200, 50⟩
def COL_WHITE : rgb := ⟨255, 255, 255⟩
def COL_LTGRAY : rgb := ⟨180, 190, 210⟩
def COL_YELLOW : rgb := ⟨255, 255, 100⟩
def COL_CYAN : rgb := ⟨100, 220, 255⟩
def COL_GREEN : rgb := ⟨80, 220, 120⟩
def COL_ORANGE : rgb := ⟨255, 160, 50⟩
def COL_GRADTOP : rgb := ⟨20, 40, 120⟩
def COL_GRADBOT : rgb := ⟨5, 15, 60⟩
def COL_SEP : rgb := ⟨50, 80, 160⟩
def COL_TEMPHI : rgb := ⟨255, 100, 80⟩
def COL_TEMPLO : rgb := ⟨100, 180, 255⟩

/- ── background gradient, both implementations ────────────────────── -/

/-- Channel of fb.h fb_bg_at: (uint8_t)(top + (bot - top) * (y / 400.0f)),
i.e. the float SUM is cast to uint8_t.  Exact model: truncate the rational
top + (bot-top)*y/400 = (top*400 + (bot-top)*y) / 400 toward zero. -/
def bgChan (top bot y : ℤ) : ℤ := Int.tdiv (top * 400 + (bot - top) * y) 400

/-- Channel of weatherstar.c fb_clear: top + (int)((bot - top) * (y/400.0f)),
i.e. the float PRODUCT is cast to int before the addition. -/
def wsChan (top bot y : ℤ) : ℤ := top + Int.tdiv ((bot - top) * y) 400

/-- Background gradient colour at row y, as computed by fb_bg_at in fb.h
(used by fb_clear and by the rounded-rect corner knockout there). -/
def fb_bg_at (y : ℤ) : rgb :=
  ⟨bgChan COL_GRADTOP.r COL_GRADBOT.r y,
   bgChan COL_GRADTOP.g COL_GRADBOT.g y,
   bgChan COL_GRADTOP.b COL_GRADBOT.b y⟩

/-- Background gradient colour at row y, as computed inline by fb_clear and
by the rounded-rect corner knockout in weatherstar.c. -/
def ws_clear_at (y : ℤ) : rgb :=
  ⟨wsChan COL_GRADTOP.r COL_GRADBOT.r y,
   wsChan COL_GRADTOP.g COL_GRADBOT.g y,
   wsChan COL_GRADTOP.b COL_GRADBOT.b y⟩

/-- fb_clear of fb.h: every in-bounds pixel receives fb_bg_at of its row. -/
def fb_clear (fb : Fb) : Fb := upd inb (fun _ y => fb_bg_at y) fb

/- ── rectangles, gradient rectangles, horizontal lines ────────────── -/

/-- Hit predicate of fb_rect: the loops run y from y0 while y < y0+h and
y < FB_H, x from x0 while x < x0+w and x < FB_W, and store only when
x >= 0 && y >= 0. -/
def rectHit (x0 y0 w h x y : ℤ) : Bool :=
  decide (x0 ≤ x ∧ x < x0 + w ∧ y0 ≤ y ∧ y < y0 + h) && inb x y

/-- fb_rect: solid filled rectangle, clipped to the framebuffer. -/
def fb_rect (x0 y0 w h : ℤ) (c : rgb) (fb : Fb) : Fb :=
  upd (rectHit x0 y0 w h) (fun _ _ => c) fb

/-- Channel of the per-row colour of fb_rect_grad_v:
(uint8_t)(top + (bot - top) * t) with t = (h > 1) ? (y - y0)/(h - 1) : 0,
modelled exactly as truncation of the scaled rational. -/
def gradVChan (top bot y0 h y : ℤ) : ℤ :=
  if 1 < h then Int.tdiv (top * (h - 1) + (bot - top) * (y - y0)) (h - 1)
  else top

/-- Per-row colour of fb_rect_grad_v (identical code in both files). -/
def gradVColor (top bot : rgb) (y0 h y : ℤ) : rgb :=
  ⟨gradVChan top.r bot.r y0 h y,
   gradVChan top.g bot.g y0 h y,
   gradVChan top.b bot.b y0 h y⟩

/-- fb_rect_grad_v: rectangle with vertical colour gradient; same loop
bounds and guards as fb_rect, value depending on the row. -/
def fb_rect_grad_v (x0 y0 w h : ℤ) (top bot : rgb) (fb : Fb) : Fb :=
  upd (rectHit x0 y0 w h) (fun _ y => gradVColor top bot y0 h y) fb

/-- Hit predicate of fb_hline: row must satisfy 0 <= y < FB_H (early
return otherwise), x runs from x0 while x <= x1 and x < FB_W, stores only
when x >= 0. -/
def hlineHit (x0 x1 yl x y : ℤ) : Bool :=
  decide (y = yl ∧ x0 ≤ x ∧ x ≤ x1) && inb x y

/-- fb_hline: inclusive horizontal span at one row. -/
def fb_hline (x0 x1 yl : ℤ) (c : rgb) (fb : Fb) : Fb :=
  upd (hlineHit x0 x1 yl) (fun _ _ => c) fb

/- ── rounded rectangle (fb.h version, squared-distance corner test) ── -/

/-- Corner test of draw_rounded_rect in fb.h: a corner-block offset (dx, dy)
with 0 ≤ dx < r, 0 ≤ dy < r is knocked out when
(r-dx)*(r-dx) + (r-dy)*(r-dy) > r*r. -/
def farFromArc (r dx dy : ℤ) : Prop :=
  r * r < (r - dx) * (r - dx) + (r - dy) * (r - dy)

instance (r dx dy : ℤ) : Decidable (farFromArc r dx dy) := by
  unfold farFromArc; infer_instance

/-- Hit predicate of the corner-knockout loop of draw_rounded_rect (fb.h).
The loop ranges over dy, dx in [0, r); when the squared distance test
passes, the four pixels (x0+dx, y0+dy), (x0+w-1-dx, y0+dy),
(x0+dx, y0+h-1-dy), (x0+w-1-dx, y0+h-1-dy) are overwritten (guarded by the
bounds check).  Each corner formula is inverted deterministically: a pixel
(x, y) is written via the top-left corner iff dx = x-x0 and dy = y-y0 land
in [0, r) and pass the distance test, and so on for the other corners. -/
def knockHit (x0 y0 w h r x y : ℤ) : Bool :=
  (decide (0 ≤ x - x0 ∧ x - x0 < r ∧ 0 ≤ y - y0 ∧ y - y0 < r ∧
            farFromArc r (x - x0) (y - y0)) ||
   decide (0 ≤ x0 + w - 1 - x ∧ x0 + w - 1 - x < r ∧ 0 ≤ y - y0 ∧ y - y0 < r ∧
            farFromArc r (x0 + w - 1 - x) (y - y0)) ||
   decide (0 ≤ x - x0 ∧ x - x0 < r ∧ 0 ≤ y0 + h - 1 - y ∧ y0 + h - 1 - y < r ∧
            farFromArc r (x - x0) (y0 + h - 1 - y)) ||
   decide (0 ≤ x0 + w - 1 - x ∧ x0 + w - 1 - x < r ∧
            0 ≤ y0 + h - 1 - y ∧ y0 + h - 1 - y < r ∧
            farFromArc r (x0 + w - 1 - x) (y0 + h - 1 - y))) && inb x y

/-- draw_rounded_rect of fb.h: fill the whole rectangle, then knock the
corner pixels outside the arc back to the background gradient colour of
their absolute row (fb_bg_at). -/
def draw_rounded_rect (x0 y0 w h r : ℤ) (fill : rgb) (fb : Fb) : Fb :=
  upd (knockHit x0 y0 w h r) (fun _ y => fb_bg_at y)
    (fb_rect x0 y0 w h fill fb)

/- ── sun and cloud icons ──────────────────────────────────────────── -/

/-- Ray offset table abstraction: trig i d stands for the pair
((int)(cosf(i*3.14159f/4)*d), (int)(sinf(i*3.14159f/4)*d)) computed by
draw_sun.  It is a parameter of the embedding because cosf/sinf have no
exact integer semantics; proofs assume only properties that C float
semantics guarantee for it. -/
def SunTrig : Type := ℕ → ℤ → ℤ × ℤ

/-- Bound guaranteed by |cosf| ≤ 1, |sinf| ≤ 1 and the truncating (int)
cast: each ray offset has magnitude at most the ray distance d. -/
def SunTrigBound (trig : SunTrig) : Prop :=
  ∀ i d, 0 ≤ d →
    -d ≤ (trig i d).1 ∧ (trig i d).1 ≤ d ∧
    -d ≤ (trig i d).2 ∧ (trig i d).2 ≤ d

/-- Hit predicate of the filled-circle loops (sun body, cloud lobes,
forecast dots): offsets dx, dy range over [-r, r] and the pixel is stored
when dx*dx + dy*dy <= r*r, guarded by the full bounds check. -/
def circleHit (cx cy r x y : ℤ) : Bool :=
  decide (-r ≤ x - cx ∧ x - cx ≤ r ∧ -r ≤ y - cy ∧ y - cy ≤ r ∧
          (x - cx) * (x - cx) + (y - cy) * (y - cy) ≤ r * r) && inb x y

/-- Hit predicate of the ray loops of draw_sun in icons.h: 8 angles, ray
distances d from r+3 to r+9; each iteration stores (px, py) guarded by the
full bounds check and (px+1, py) guarded by the full bounds check. -/
def rayHit (trig : SunTrig) (cx cy r x y : ℤ) : Bool :=
  (List.range 8).any fun i =>
    (List.range 7).any fun j =>
      let o := trig i (r + 3 + (j : ℤ))
      let px := cx + o.1
      let py := cy + o.2
      (decide (x = px ∧ y = py) && inb px py) ||
      (decide (x = px + 1 ∧ y = py) && inb (px + 1) py)

/-- Hit predicate of the ray loops of draw_sun in weatherstar.c: the first
store is fully guarded, but the ray-thickening second store at (px+1, py)
is guarded only by px + 1 < FB_W — py and the sign of px+1 are unchecked. -/
def rayHitWs (trig : SunTrig) (cx cy r x y : ℤ) : Bool :=
  (List.range 8).any fun i =>
    (List.range 7).any fun j =>
      let o := trig i (r + 3 + (j : ℤ))
      let px := cx + o.1
      let py := cy + o.2
      (decide (x = px ∧ y = py) && inb px py) ||
      (decide (x = px + 1 ∧ y = py ∧ px + 1 < FBW))

/-- draw_sun of icons.h: filled yellow circle, then orange rays (the rays
are drawn after the body, so an overlapping ray pixel ends up orange). -/
def draw_sun (trig : SunTrig) (cx cy r : ℤ) (fb : Fb) : Fb :=
  upd (rayHit trig cx cy r) (fun _ _ => COL_ORANGE)
    (upd (circleHit cx cy r) (fun _ _ => COL_YELLOW) fb)

/-- draw_sun of weatherstar.c: identical except for the missing bounds
guard on the ray-thickening store (see rayHitWs). -/
def draw_sun_ws (trig : SunTrig) (cx cy r : ℤ) (fb : Fb) : Fb :=
  upd (rayHitWs trig cx cy r) (fun _ _ => COL_ORANGE)
    (upd (circleHit cx cy r) (fun _ _ => COL_YELLOW) fb)

/-- draw_cloud: three overlapping filled circles of one colour — centre
(radius 12), left lobe (-10, +4, radius 10), right lobe (+10, +4,
radius 10), drawn in that order. -/
def draw_cloud (cx cy : ℤ) (col : rgb) (fb : Fb) : Fb :=
  upd (circleHit (cx + 10) (cy + 4) 10) (fun _ _ => col)
    (upd (circleHit (cx - 10) (cy + 4) 10) (fun _ _ => col)
      (upd (circleHit cx cy 12) (fun _ _ => col) fb))

/- ── 5x7 bitmap font and text blitting ────────────────────────────── -/

/-- Font table font5x7 covering ASCII 32..126, transcribed from the C
source: entry k is the 7-row bitmap of character code 32+k, each row a
5-bit mask tested with 0x10 >> col. -/
def font5x7 : List (List ℕ) := [
  [0x00,0x00,0x00,0x00,0x00,0x00,0x00],
  [0x04,0x04,0x04,0x04,0x04,0x00,0x04],
  [0x0A,0x0A,0x00,0x00,0x00,0x00,0x00],
  [0x0A,0x1F,0x0A,0x0A,0x1F,0x0A,0x00],
  [0x04,0x0F,0x14,0x0E,0x05,0x1E,0x04],
  [0x18,0x19,0x02,0x04,0x08,0x13,0x03],
  [0x08,0x14,0x14,0x08,0x15,0x12,0x0D],
  [0x04,0x04,0x00,0x00,0x00,0x00,0x00],
  [0x02,0x04,0x08,0x08,0x08,0x04,0x02],
  [0x08,0x04,0x02,0x02,0x02,0x04,0x08],
  [0x00,0x04,0x15,0x0E,0x15,0x04,0x00],
  [0x00,0x04,0x04,0x1F,0x04,0x04,0x00],
  [0x00,0x00,0x00,0x00,0x00,0x04,0x08],
  [0x00,0x00,0x00,0x1F,0x00,0x00,0x00],
  [0x00,0x00,0x00,0x00,0x00,0x00,0x04],
  [0x01,0x01,0x02,0x04,0x08,0x10,0x10],
  [0x0E,0x11,0x13,0x15,0x19,0x11,0x0E],
  [0x04,0x0C,0x04,0x04,0x04,0x04,0x0E],
  [0x0E,0x11,0x01,0x06,0x08,0x10,0x1F],
  [0x0E,0x11,0x01,0x06,0x01,0x11,0x0E],
  [0x02,0x06,0x0A,0x12,0x1F,0x02,0x02],
  [0x1F,0x10,0x1E,0x01,0x01,0x11,0x0E],
  [0x06,0x08,0x10,0x1E,0x11,0x11,0x0E],
  [0x1F,0x01,0x02,0x04,0x08,0x08,0x08],
  [0x0E,0x11,0x11,0x0E,0x11,0x11,0x0E],
  [0x0E,0x11,0x11,0x0F,0x01,0x02,0x0C],
  [0x00,0x00,0x04,0x00,0x00,0x04,0x00],
  [0x00,0x00,0x04,0x00,0x00,0x04,0x08],
  [0x02,0x04,0x08,0x10,0x08,0x04,0x02],
  [0x00,0x00,0x1F,0x00,0x1F,0x00,0x00],
  [0x08,0x04,0x02,0x01,0x02,0x04,0x08],
  [0x0E,0x11,0x01,0x02,0x04,0x00,0x04],
  [0x0E,0x11,0x17,0x15,0x17,0x10,0x0E],
  [0x0E,0x11,0x11,0x1F,0x11,0x11,0x11],
  [0x1E,0x11,0x11,0x1E,0x11,0x11,0x1E],
  [0x0E,0x11,0x10,0x10,0x10,0x11,0x0E],
  [0x1E,0x11,0x11,0x11,0x11,0x11,0x1E],
  [0x1F,0x10,0x10,0x1E,0x10,0x10,0x1F],
  [0x1F,0x10,0x10,0x1E,0x10,0x10,0x10],
  [0x0E,0x11,0x10,0x17,0x11,0x11,0x0F],
  [0x11,0x11,0x11,0x1F,0x11,0x11,0x11],
  [0x0E,0x04,0x04,0x04,0x04,0x04,0x0E],
  [0x07,0x02,0x02,0x02,0x02,0x12,0x0C],
  [0x11,0x12,0x14,0x18,0x14,0x12,0x11],
  [0x10,0x10,0x10,0x10,0x10,0x10,0x1F],
  [0x11,0x1B,0x15,0x15,0x11,0x11,0x11],
  [0x11,0x19,0x15,0x13,0x11,0x11,0x11],
  [0x0E,0x11,0x11,0x11,0x11,0x11,0x0E],
  [0x1E,0x11,0x11,0x1E,0x10,0x10,0x10],
  [0x0E,0x11,0x11,0x11,0x15,0x12,0x0D],
  [0x1E,0x11,0x11,0x1E,0x14,0x12,0x11],
  [0x0E,0x11,0x10,0x0E,0x01,0x11,0x0E],
  [0x1F,0x04,0x04,0x04,0x04,0x04,0x04],
  [0x11,0x11,0x11,0x11,0x11,0x11,0x0E],
  [0x11,0x11,0x11,0x11,0x0A,0x0A,0x04],
  [0x11,0x11,0x11,0x15,0x15,0x1B,0x11],
  [0x11,0x11,0x0A,0x04,0x0A,0x11,0x11],
  [0x11,0x11,0x0A,0x04,0x04,0x04,0x04],
  [0x1F,0x01,0x02,0x04,0x08,0x10,0x1F],
  [0x0E,0x08,0x08,0x08,0x08,0x08,0x0E],
  [0x10,0x10,0x08,0x04,0x02,0x01,0x01],
  [0x0E,0x02,0x02,0x02,0x02,0x02,0x0E],
  [0x04,0x0A,0x11,0x00,0x00,0x00,0x00],
  [0x00,0x00,0x00,0x00,0x00,0x00,0x1F],
  [0x08,0x04,0x00,0x00,0x00,0x00,0x00],
  [0x00,0x00,0x0E,0x01,0x0F,0x11,0x0F],
  [0x10,0x10,0x1E,0x11,0x11,0x11,0x1E],
  [0x00,0x00,0x0E,0x11,0x10,0x11,0x0E],
  [0x01,0x01,0x0F,0x11,0x11,0x11,0x0F],
  [0x00,0x00,0x0E,0x11,0x1F,0x10,0x0E],
  [0x06,0x08,0x1E,0x08,0x08,0x08,0x08],
  [0x00,0x00,0x0F,0x11,0x0F,0x01,0x0E],
  [0x10,0x10,0x1E,0x11,0x11,0x11,0x11],
  [0x04,0x00,0x0C,0x04,0x04,0x04,0x0E],
  [0x02,0x00,0x06,0x02,0x02,0x12,0x0C],
  [0x10,0x10,0x12,0x14,0x18,0x14,0x12],
  [0x0C,0x04,0x04,0x04,0x04,0x04,0x0E],
  [0x00,0x00,0x1A,0x15,0x15,0x15,0x15],
  [0x00,0x00,0x1E,0x11,0x11,0x11,0x11],
  [0x00,0x00,0x0E,0x11,0x11,0x11,0x0E],
  [0x00,0x00,0x1E,0x11,0x1E,0x10,0x10],
  [0x00,0x00,0x0F,0x11,0x0F,0x01,0x01],
  [0x00,0x00,0x16,0x19,0x10,0x10,0x10],
  [0x00,0x00,0x0F,0x10,0x0E,0x01,0x1E],
  [0x08,0x08,0x1E,0x08,0x08,0x09,0x06],
  [0x00,0x00,0x11,0x11,0x11,0x11,0x0F],
  [0x00,0x00,0x11,0x11,0x0A,0x0A,0x04],
  [0x00,0x00,0x11,0x11,0x15,0x15,0x0A],
  [0x00,0x00,0x11,0x0A,0x04,0x0A,0x11],
  [0x00,0x00,0x11,0x11,0x0F,0x01,0x0E],
  [0x00,0x00,0x1F,0x02,0x04,0x08,0x1F],
  [0x02,0x04,0x04,0x08,0x04,0x04,0x02],
  [0x04,0x04,0x04,0x04,0x04,0x04,0x04],
  [0x08,0x04,0x04,0x02,0x04,0x04,0x08],
  [0x00,0x00,0x08,0x15,0x02,0x00,0x00]]

/-- Glyph index of fb_char: idx = ch - 32, replaced by 0 when outside
0..94 (unsupported characters fall back to the space glyph). -/
def glyphIdx (ch : Char) : ℕ :=
  if ch.toNat < 32 ∨ 126 < ch.toNat then 0 else ch.toNat - 32

/-- Row bitmap font5x7[idx][row] of a character. -/
def glyphRow (ch : Char) (row : ℕ) : ℕ :=
  (font5x7.getD (glyphIdx ch) []).getD row 0

/-- Bit test font5x7[idx][row] & (0x10 >> col) of fb_char. -/
def glyphBit (ch : Char) (row col : ℕ) : Bool :=
  decide (glyphRow ch row &&& (0x10 >>> col) ≠ 0)

/-- Hit predicate of fb_char at top-left (px, py) and the given scale: the
loops run row over [0,7), col over [0,5); when the glyph bit is set, the
scale x scale block with corner (px + col*scale, py + row*scale) is
stored, each sub-pixel guarded by the full bounds check.  The sx, sy
sub-loops are folded into the half-open block intervals (empty whenever
scale <= 0, exactly as the C loops). -/
def charHit (px py : ℤ) (ch : Char) (sc x y : ℤ) : Bool :=
  (List.range 7).any fun row =>
    (List.range 5).any fun col =>
      glyphBit ch row col &&
      decide (px + (col : ℤ) * sc ≤ x ∧ x < px + ((col : ℤ) + 1) * sc ∧
              py + (row : ℤ) * sc ≤ y ∧ y < py + ((row : ℤ) + 1) * sc) &&
      inb x y

/-- fb_char: blit one scaled glyph in colour fg. -/
def fb_char (px py : ℤ) (ch : Char) (fg : rgb) (sc : ℤ) (fb : Fb) : Fb :=
  upd (charHit px py ch sc) (fun _ _ => fg) fb

/-- fb_string: draw the characters left to right, advancing the pen by
spacing = 6 * scale after each one (C strings carried as List Char). -/
def fb_string (px py : ℤ) (s : List Char) (fg : rgb) (sc : ℤ) (fb : Fb) :
    Fb :=
  match s with
  | [] => fb
  | ch :: rest =>
      fb_string (px + 6 * sc) py rest fg sc (fb_char px py ch fg sc fb)

/-- fb_string_width: strlen(s) * 6 * scale. -/
def fb_string_width (s : List Char) (sc : ℤ) : ℤ :=
  (s.length : ℤ) * 6 * sc

/-- fb_string_centered: x = (FB_W - width) / 2 with C truncating integer
division, then fb_string. -/
def fb_string_centered (yl : ℤ) (s : List Char) (fg : rgb) (sc : ℤ)
    (fb : Fb) : Fb :=
  fb_string (Int.tdiv (FBW - fb_string_width s sc) 2) yl s fg sc fb

/-- Three-row bitmap of the degree mark in fb_degree. -/
def degRows : List ℕ := [0x02, 0x05, 0x02]

/-- Hit predicate of fb_degree: rows and cols in [0,3), mask
deg[row] & (0x04 >> col), scaled blocks as in fb_char. -/
def degHit (px py sc x y : ℤ) : Bool :=
  (List.range 3).any fun row =>
    (List.range 3).any fun col =>
      decide (degRows.getD row 0 &&& (0x04 >>> col) ≠ 0) &&
      decide (px + (col : ℤ) * sc ≤ x ∧ x < px + ((col : ℤ) + 1) * sc ∧
              py + (row : ℤ) * sc ≤ y ∧ y < py + ((row : ℤ) + 1) * sc) &&
      inb x y

/-- fb_degree: small scaled degree-mark blit. -/
def fb_degree (px py : ℤ) (fg : rgb) (sc : ℤ) (fb : Fb) : Fb :=
  upd (degHit px py sc) (fun _ _ => fg) fb

/- ── scene composer (display.h compose_display) ───────────────────── -/

/-- Leading-zero strip of compose_display: the C code points timestr at
timebuf + 1 exactly when timebuf[0] == '0' (an empty buffer starts with
the NUL terminator, which is not '0', so it is left unchanged). -/
def strip0 (s : List Char) : List Char :=
  match s with
  | '0' :: rest => rest
  | _ => s

/-- Forecast day labels (hardcoded scene data). -/
def fc_days : List (List Char) :=
  ["SAT", "SUN", "MON", "TUE", "WED"].map String.toList

/-- Forecast condition strings (hardcoded scene data). -/
def fc_conds : List (List Char) :=
  ["Sunny", "Cloudy", "Rain", "P.Cloud", "Sunny"].map String.toList

/-- Rendered snprintf results of the high-temperature lines, with the
hardcoded highs 68, 65, 58, 61, 70. -/
def fc_his : List (List Char) :=
  ["Hi 68", "Hi 65", "Hi 58", "Hi 61", "Hi 70"].map String.toList

/-- Rendered snprintf results of the low-temperature lines, with the
hardcoded lows 52, 50, 48, 49, 54. -/
def fc_los : List (List Char) :=
  ["Lo 52", "Lo 50", "Lo 48", "Lo 49", "Lo 54"].map String.toList

/-- Hit predicate of the forecast mini indicator dot: offsets dx, dy range
over [-3, 3] with dx*dx + dy*dy <= 9, centred at
(bx + box_w - 18, by + 72), each store guarded by the bounds check. -/
def dotHit (bx byv x y : ℤ) : Bool :=
  circleHit (bx + 110 - 18) (byv + 72) 3 x y

/-- One iteration of the forecast-box loop of compose_display, for box
index i: box background, top highlight rule, centred day label, high and
low lines, condition text, and the indicator dot (cyan for the rain day
i = 2, yellow otherwise). -/
def forecastBox (i : ℕ) (fb : Fb) : Fb :=
  let box_start : ℤ := Int.tdiv (FBW - (5 * 110 + 4 * 10)) 2
  let bx : ℤ := box_start + (i : ℤ) * (110 + 10)
  let byv : ℤ := 252 + 26
  let fb := fb_rect bx byv 110 95 ⟨15, 25, 90⟩ fb
  let fb := fb_hline bx (bx + 110 - 1) byv COL_SEP fb
  let dw := fb_string_width (fc_days.getD i []) 2
  let fb := fb_string (bx + Int.tdiv (110 - dw) 2) (byv + 4)
              (fc_days.getD i []) COL_WHITE 2 fb
  let fb := fb_string (bx + 8) (byv + 30) (fc_his.getD i []) COL_TEMPHI 1 fb
  let fb := fb_string (bx + 8) (byv + 44) (fc_los.getD i []) COL_TEMPLO 1 fb
  let fb := fb_string (bx + 8) (byv + 62) (fc_conds.getD i []) COL_LTGRAY 1 fb
  upd (dotHit bx byv) (fun _ _ => if i = 2 then COL_CYAN else COL_YELLOW) fb

/-- compose_display of display.h: the full scene, drawn in source order
over the fb.h primitives.  The current time and date strings, produced in
C by time()/localtime()/strftime() just before drawing, are supplied as
the external inputs timebuf and datebuf (the spec's composition boundary);
trig abstracts the libm ray offsets of draw_sun. -/
def compose_display (timebuf datebuf : List Char) (trig : SunTrig)
    (fb : Fb) : Fb :=
  let timestr := strip0 timebuf
  let card_y : ℤ := 104
  let strip_y : ℤ := 252
  let bot_y : ℤ := FBH - 30
  let fb := fb_clear fb
  let fb := fb_rect 0 0 FBW 4 COL_GOLD fb
  let fb := fb_rect_grad_v 0 4 FBW 36 COL_HEADER ⟨30, 55, 140⟩ fb
  let fb := fb_string_centered 10 ("THE  WEATHER  CHANNEL".toList)
              COL_WHITE 2 fb
  let fb := fb_hline 0 (FBW - 1) 40 COL_GOLD fb
  let fb := fb_hline 0 (FBW - 1) 41 COL_GOLD fb
  let fb := fb_rect_grad_v 0 42 FBW 30 ⟨30, 50, 140⟩ ⟨20, 35, 110⟩ fb
  let fb := fb_string_centered 48 ("LOCAL  FORECAST".toList) COL_CYAN 2 fb
  let fb := fb_hline 20 (FBW - 21) 73 COL_SEP fb
  let fb := fb_string_centered 80 ("San Francisco, CA".toList) COL_WHITE 2 fb
  let fb := draw_rounded_rect 20 card_y (FBW - 40) 140 6 ⟨15, 25, 90⟩ fb
  let fb := fb_hline 22 (FBW - 23) (card_y + 1) COL_SEP fb
  let fb := fb_string 36 (card_y + 8) ("Current Conditions".toList)
              COL_ACCENT 1 fb
  let fb := fb_hline 36 (FBW - 57) (card_y + 20) ⟨40, 60, 130⟩ fb
  let fb := draw_sun trig 90 (card_y + 55) 18 fb
  let fb := draw_cloud 110 (card_y + 60) COL_LTGRAY fb
  let fb := fb_string 180 (card_y + 30) ("62".toList) COL_WHITE 5 fb
  let fb := fb_degree (180 + 5 * 6 * 2) (card_y + 30) COL_WHITE 3 fb
  let fb := fb_string (180 + 5 * 6 * 2 + 12) (card_y + 30) ("F".toList)
              COL_WHITE 4 fb
  let fb := fb_string 180 (card_y + 75) ("Partly Cloudy".toList)
              COL_LTGRAY 2 fb
  let lbl_x : ℤ := 36
  let val_x : ℤ := 36 + 11 * 6
  let fb := fb_string lbl_x (card_y + 100) ("Humidity:".toList) COL_CYAN 1 fb
  let fb := fb_string val_x (card_y + 100) ("72%".toList) COL_WHITE 1 fb
  let fb := fb_string lbl_x (card_y + 112) ("Wind:".toList) COL_CYAN 1 fb
  let fb := fb_string val_x (card_y + 112) ("W 12 mph".toList) COL_WHITE 1 fb
  let fb := fb_string lbl_x (card_y + 124) ("Barometer:".toList) COL_CYAN 1 fb
  let fb := fb_string val_x (card_y + 124) ("30.12 in".toList) COL_WHITE 1 fb
  let rlbl_x : ℤ := 320
  let rval_x : ℤ := 320 + 12 * 6
  let fb := fb_string rlbl_x (card_y + 100) ("Dewpoint:".toList) COL_CYAN 1 fb
  let fb := fb_string rval_x (card_y + 100) ("54 F".toList) COL_WHITE 1 fb
  let fb := fb_string rlbl_x (card_y + 112) ("Visibility:".toList)
              COL_CYAN 1 fb
  let fb := fb_string rval_x (card_y + 112) ("10 mi".toList) COL_WHITE 1 fb
  let fb := fb_string rlbl_x (card_y + 124) ("UV Index:".toList) COL_CYAN 1 fb
  let fb := fb_string rval_x (card_y + 124) ("3 Moderate".toList)
              COL_GREEN 1 fb
  let fb := fb_hline 20 (FBW - 21) strip_y COL_GOLD fb
  let fb := fb_hline 20 (FBW - 21) (strip_y + 1) COL_GOLD fb
  let fb := fb_string 30 (strip_y + 8) ("EXTENDED FORECAST".toList)
              COL_GOLD 1 fb
  let fb := fb_hline 20 (FBW - 21) (strip_y + 20) ⟨40, 60, 130⟩ fb
  let fb := forecastBox 0 fb
  let fb := forecastBox 1 fb
  let fb := forecastBox 2 fb
  let fb := forecastBox 3 fb
  let fb := forecastBox 4 fb
  let fb := fb_rect 0 bot_y FBW 30 ⟨10, 15, 55⟩ fb
  let fb := fb_hline 0 (FBW - 1) bot_y COL_GOLD fb
  let fb := fb_hline 0 (FBW - 1) (bot_y + 1) COL_GOLD fb
  let fb := fb_string 20 (bot_y + 10) datebuf COL_LTGRAY 1 fb
  let tw := fb_string_width timestr 2
  let fb := fb_string (FBW - tw - 20) (bot_y + 6) timestr COL_WHITE 2 fb
  fb_string_centered (bot_y + 10) ("Local on the 8s".toList) COL_GOLD 1 fb

/-- Initial framebuffer: the C array lives in zero-initialised static
storage, so every channel starts at 0. -/
def fbZero : Fb := fun _ _ => ⟨0, 0, 0⟩

/- ── command-line front end (main.c) ──────────────────────────────── -/

/-- Result of the argument loop of main: either the help early-return or
the final flag state (screenshot path if configured, no_ansi flag). -/
inductive CliOutcome where
  | helpExit : CliOutcome
  | run : Option String → Bool → CliOutcome
deriving DecidableEq

/-- Argument loop of main: --screenshot consumes the following argument as
the path only when one exists (i + 1 < argc); --no-ansi sets the flag;
--help returns immediately; anything else, including a trailing
--screenshot with nothing after it, is ignored silently. -/
def parse_args : List String → Option String → Bool → CliOutcome
  | [], shot, na => .run shot na
  | a :: rest, shot, na =>
    if a = "--screenshot" then
      match rest with
      | p :: rest2 => parse_args rest2 (some p) na
      | [] => parse_args [] shot na
    else if a = "--no-ansi" then parse_args rest shot true
    else if a = "--help" then .helpExit
    else parse_args rest shot na

/-- Observable outcome of one run of main: whether the terminal export
ran, the path handed to write_png (none when no export is attempted), and
the process exit code. -/
structure RunResult where
  ansiRan : Bool
  pngArg : Option String
  exitCode : ℕ
deriving DecidableEq, Repr

/-- main of main.c: parse arguments, compose, run the terminal export
unless suppressed, then attempt the raster export when a path was
configured, with exit code 1 when write_png fails (pngOk abstracts the
success of the external write_png call on a given path). -/
def main_model (args : List String) (pngOk : String → Bool) : RunResult :=
  match parse_args args none false with
  | .helpExit => ⟨false, none, 0⟩
  | .run shot na =>
    match shot with
    | none => ⟨!na, none, 0⟩
    | some p => ⟨!na, some p, if pngOk p then 0 else 1⟩

/- ══════════════════════════════════════════════════════════════════
   Theorems
   ══════════════════════════════════════════════════════════════════ -/

/- ── helper lemmas on the gradient channels ───────────────────────── -/

/-- One channel of the two duplicated clear gradients: the weatherstar.c
form (truncate the product, then add) always equals the fb.h form
(truncate the sum) or exceeds it by exactly one. -/
lemma wsChan_bgChan_cases (top bot y : ℤ) (hb : 0 ≤ bot) (htb : bot ≤ top)
    (hy : 0 ≤ y) (hy4 : y < 400) :
    wsChan top bot y = bgChan top bot y ∨
    wsChan top bot y = bgChan top bot y + 1 := by
  have hm : 0 ≤ (top - bot) * y := mul_nonneg (by omega) hy
  have hub : (top - bot) * y ≤ top * 400 := by
    calc (top - bot) * y ≤ top * y := by
          exact mul_le_mul_of_nonneg_right (by omega) hy
      _ ≤ top * 400 := by
          exact mul_le_mul_of_nonneg_left (by omega) (by omega)
  unfold wsChan bgChan
  rw [show (bot - top) * y = -((top - bot) * y) from by ring, Int.neg_tdiv,
    Int.tdiv_eq_ediv hm (by norm_num),
    show top * 400 + -((top - bot) * y) = top * 400 - (top - bot) * y from by
      ring,
    Int.tdiv_eq_ediv (by omega) (by norm_num)]
  omega

/-- C3: counterexample.  At row y = 1 the fb.h gradient (truncate the
float sum) yields (19, 39, 119) while the weatherstar.c gradient
(truncate the float product, then add) yields (20, 40, 120), so the two
duplicate fb_clear implementations do not agree on every row. -/
theorem C3_counterexample : fb_bg_at 1 ≠ ws_clear_at 1 := by decide

/-- C3 (amended): for every row y in [0, 400), each channel produced by
weatherstar.c fb_clear equals the corresponding channel produced via fb.h
fb_bg_at, or exceeds it by exactly one; the two implementations are
off-by-at-most-one rather than identical. -/
theorem C3_gradient_rows (y : ℤ) (h0 : 0 ≤ y) (h4 : y < 400) :
    ((ws_clear_at y).r = (fb_bg_at y).r ∨
      (ws_clear_at y).r = (fb_bg_at y).r + 1) ∧
    ((ws_clear_at y).g = (fb_bg_at y).g ∨
      (ws_clear_at y).g = (fb_bg_at y).g + 1) ∧
    ((ws_clear_at y).b = (fb_bg_at y).b ∨
      (ws_clear_at y).b = (fb_bg_at y).b + 1) := by
  refine ⟨?_, ?_, ?_⟩ <;>
    simp only [ws_clear_at, fb_bg_at, COL_GRADTOP, COL_GRADBOT]
  · exact wsChan_bgChan_cases 20 5 y (by norm_num) (by norm_num) h0 h4
  · exact wsChan_bgChan_cases 40 15 y (by norm_num) (by norm_num) h0 h4
  · exact wsChan_bgChan_cases 120 60 y (by norm_num) (by norm_num) h0 h4

/-- Witness for C3_gradient_rows at the concrete row 1. -/
theorem C3_gradient_rows_witness :
    (0 : ℤ) ≤ 1 ∧ (1 : ℤ) < 400 ∧
    (((ws_clear_at 1).r = (fb_bg_at 1).r ∨
       (ws_clear_at 1).r = (fb_bg_at 1).r + 1) ∧
     ((ws_clear_at 1).g = (fb_bg_at 1).g ∨
       (ws_clear_at 1).g = (fb_bg_at 1).g + 1) ∧
     ((ws_clear_at 1).b = (fb_bg_at 1).b ∨
       (ws_clear_at 1).b = (fb_bg_at 1).b + 1)) :=
  ⟨by norm_num, by norm_num, C3_gradient_rows 1 (by norm_num) (by norm_num)⟩

/- ── C5: the two corner tests ─────────────────────────────────────── -/

/-- Floor of the base-2 logarithm by bounded search, valid for every
n < 2^64 (far beyond the 32-bit int values the program can produce):
the number of exponents k < 64 with 2^k ≤ n, minus one. -/
def natLog2 (n : ℕ) : ℕ :=
  ((List.range 64).filter fun k => 2 ^ k ≤ n).length - 1

/-- Round-to-nearest (ties to even) of a non-negative integer into the
float32 value set, as performed by the C cast (float)dist_sq before the
sqrtf call: integers up to 2^24 are exactly representable; above that the
value is rounded to the nearest multiple of the ulp 2^(floor(log2 n)-23),
with a halfway remainder resolved toward the even significand. -/
def f32round (n : ℕ) : ℕ :=
  if n ≤ 2 ^ 24 then n
  else
    let e := natLog2 n - 23
    let u := 2 ^ e
    let q := n / u
    let rem := n % u
    if 2 * rem < u then q * u
    else if u < 2 * rem then (q + 1) * u
    else (if q % 2 = 0 then q else q + 1) * u

/-- Integers up to 2^24 convert to float32 exactly. -/
lemma f32round_small (n : ℕ) (h : n ≤ 2 ^ 24) : f32round n = n := by
  unfold f32round
  rw [if_pos h]

/-- Corner test of draw_rounded_rect in weatherstar.c:
sqrtf((float)((r-dx)*(r-dx)+(r-dy)*(r-dy))) > r.  The (float) conversion
of the integer radicand is modelled exactly by f32round; sqrtf is
modelled as the exact real square root of the converted value, which
agrees with the correctly rounded IEEE sqrtf wherever the theorems below
evaluate it: in the counterexample the converted radicand is 2^24, whose
square root 4096 is exactly representable (so sqrtf returns it exactly),
and on the bounded domain of the equivalence theorem the radicand is at
most 2*100^2, where the distance from sqrt(s) to the integer r is at
least 1/(sqrt(s)+r) > 1/300 whenever s is not exactly r^2 — four orders
of magnitude above the half-ulp rounding error of sqrtf at values below
142 — while s = r^2 has the exactly representable root r. -/
def sqrtKnockF (r dx dy : ℤ) : Prop :=
  (r : ℝ) <
    Real.sqrt
      ((f32round ((r - dx) * (r - dx) + (r - dy) * (r - dy)).toNat : ℕ) : ℝ)

/-- C5: counterexample.  At radius r = 4096 with offsets dx = 4095,
dy = 0 — a valid, overflow-free input — the squared distance is
4096^2 + 1 = 16777217, which the (float) conversion rounds to 2^24 =
16777216 (ties to even); sqrtf then returns exactly 4096.0, so the
weatherstar.c test 4096.0 > 4096 keeps the pixel while the fb.h integer
test 16777217 > 16777216 knocks it out: the two corner tests are not
equivalent for every radius r ≥ 0. -/
theorem C5_counterexample :
    farFromArc 4096 4095 0 ∧ ¬ sqrtKnockF 4096 4095 0 := by
  constructor
  · decide
  · unfold sqrtKnockF
    rw [show (f32round (((4096 - 4095) * (4096 - 4095) +
          (4096 - 0) * (4096 - 0) : ℤ).toNat) : ℕ) = 16777216 from by
        decide,
      show ((16777216 : ℕ) : ℝ) = (4096 : ℝ) ^ 2 from by norm_num,
      Real.sqrt_sq (by norm_num)]
    exact lt_irrefl _

/-- C5 (amended): for every radius 0 ≤ r ≤ 100 — a range that covers
every radius the program draws (its only rounded-rect call uses r = 6)
and on which the whole float pipeline is exact — and all corner offsets
dx, dy in [0, r), the sqrtf-based corner test of weatherstar.c
draw_rounded_rect holds exactly when the squared-distance corner test of
fb.h draw_rounded_rect holds, so on this domain the two implementations
knock out the same corner pixels. -/
theorem C5_corner_tests_agree (r dx dy : ℤ) (hr : 0 ≤ r) (hr2 : r ≤ 100)
    (hdx0 : 0 ≤ dx) (hdx : dx < r) (hdy0 : 0 ≤ dy) (hdy : dy < r) :
    sqrtKnockF r dx dy ↔ farFromArc r dx dy := by
  have ha : (0 : ℤ) ≤ (r - dx) * (r - dx) := mul_self_nonneg _
  have hb : (0 : ℤ) ≤ (r - dy) * (r - dy) := mul_self_nonneg _
  have ha2 : (r - dx) * (r - dx) ≤ 100 * 100 :=
    mul_le_mul (by omega) (by omega) (by omega) (by norm_num)
  have hb2 : (r - dy) * (r - dy) ≤ 100 * 100 :=
    mul_le_mul (by omega) (by omega) (by omega) (by norm_num)
  have hsum : ((r - dx) * (r - dx) + (r - dy) * (r - dy)).toNat ≤ 2 ^ 24 := by
    omega
  unfold sqrtKnockF farFromArc
  rw [f32round_small _ hsum,
    show ((((r - dx) * (r - dx) + (r - dy) * (r - dy)).toNat : ℕ) : ℝ) =
        (((r - dx) * (r - dx) + (r - dy) * (r - dy) : ℤ) : ℝ) from by
      rw [← Int.cast_natCast, Int.toNat_of_nonneg (by omega)],
    Real.lt_sqrt (by positivity),
    show ((r : ℝ)) ^ 2 = ((r * r : ℤ) : ℝ) from by push_cast; ring]
  exact Int.cast_lt

/-- Witness for C5_corner_tests_agree at r = 6, dx = 0, dy = 0. -/
theorem C5_corner_tests_agree_witness :
    (0 : ℤ) ≤ 6 ∧ (6 : ℤ) ≤ 100 ∧ (0 : ℤ) ≤ 0 ∧ (0 : ℤ) < 6 ∧
    (sqrtKnockF 6 0 0 ↔ farFromArc 6 0 0) :=
  ⟨by norm_num, by norm_num, by norm_num, by norm_num,
    C5_corner_tests_agree 6 0 0 (by norm_num) (by norm_num) (by norm_num)
      (by norm_num) (by norm_num) (by norm_num)⟩

/- ── C7: string width versus drawing advance ──────────────────────── -/

/-- Concatenation law of fb_string: drawing s ++ t from pen position px
first draws s, then draws t starting at px + fb_string_width s sc — the
advance accumulated over s is exactly the reported string width. -/
lemma fb_string_append (s t : List Char) (px py : ℤ) (fg : rgb) (sc : ℤ)
    (fb : Fb) :
    fb_string px py (s ++ t) fg sc fb =
      fb_string (px + fb_string_width s sc) py t fg sc
        (fb_string px py s fg sc fb) := by
  induction s generalizing px fb with
  | nil => simp [fb_string, fb_string_width]
  | cons c cs ih =>
      simp only [List.cons_append, List.append_eq, fb_string]
      rw [ih, show px + 6 * sc + fb_string_width cs sc =
        px + fb_string_width (c :: cs) sc from by
          simp only [fb_string_width, List.length_cons]; push_cast; ring]

/-- C7: fb_string_width reports length times 6 times scale, and this is
exactly the horizontal advance fb_string accumulates: drawing s ++ t
continues at px + fb_string_width s sc, for every string and scale 1..5. -/
theorem C7_width_matches_advance (s t : List Char) (px py : ℤ) (fg : rgb)
    (sc : ℤ) (fb : Fb) (h1 : 1 ≤ sc) (h5 : sc ≤ 5) :
    fb_string_width s sc = (s.length : ℤ) * 6 * sc ∧
    fb_string px py (s ++ t) fg sc fb =
      fb_string (px + fb_string_width s sc) py t fg sc
        (fb_string px py s fg sc fb) :=
  ⟨rfl, fb_string_append s t px py fg sc fb⟩

/-- Witness for C7_width_matches_advance on the scene string at scale 2. -/
theorem C7_width_matches_advance_witness :
    (1 : ℤ) ≤ 2 ∧ (2 : ℤ) ≤ 5 ∧
    (fb_string_width ("62".toList) 2 = (("62".toList).length : ℤ) * 6 * 2 ∧
     fb_string 180 134 ("62".toList ++ "F".toList) COL_WHITE 2 fbZero =
       fb_string (180 + fb_string_width ("62".toList) 2) 134 ("F".toList)
         COL_WHITE 2 (fb_string 180 134 ("62".toList) COL_WHITE 2 fbZero)) :=
  ⟨by norm_num, by norm_num,
    C7_width_matches_advance ("62".toList) ("F".toList) 180 134 COL_WHITE 2
      fbZero (by norm_num) (by norm_num)⟩

/- ── C1: clipping safety and the weatherstar.c draw_sun slip ──────── -/

/-- Trig stub realising the exact float facts cosf 0 = 1, sinf 0 = 0 at
angle index 0; used to witness the draw_sun ray computation concretely. -/
def trigStub : SunTrig := fun _ d => (d, 0)

/-- C1: failing input for the claim.  With the sun centred at
(cx, cy) = (0, -5) and radius 18 (an off-canvas centre the claim
explicitly ranges over), the first ray iteration (angle 0, distance 21)
computes px = 21, py = -5 — cosf 0 = 1 and sinf 0 = 0 exactly, which is
all the hypothesis on trig assumes — and the ray-thickening store of
weatherstar.c draw_sun, guarded only by px + 1 < FB_W, then writes
COL_ORANGE to (22, -5): a pixel outside [0,640)x[0,400), i.e. an
out-of-bounds framebuffer store.  Every other primitive guards all of its
stores, and the icons.h duplicate of draw_sun guards this store fully, so
the code slip is in weatherstar.c draw_sun. -/
theorem C1_draw_sun_ws_oob (trig : SunTrig) (h : trig 0 21 = (21, 0)) :
    inb 22 (-5) = false ∧
    draw_sun_ws trig 0 (-5) 18 (fun _ _ => COL_GRADTOP) 22 (-5) =
      COL_ORANGE ∧
    COL_ORANGE ≠ COL_GRADTOP := by
  refine ⟨by decide, ?_, by decide⟩
  have hray : rayHitWs trig 0 (-5) 18 22 (-5) = true := by
    unfold rayHitWs
    rw [List.any_eq_true]
    refine ⟨0, by decide, ?_⟩
    rw [List.any_eq_true]
    refine ⟨0, by decide, ?_⟩
    norm_num [h, FBW]
  simp [draw_sun_ws, upd, hray]

/-- Witness for C1_draw_sun_ws_oob using the trig stub. -/
theorem C1_draw_sun_ws_oob_witness :
    trigStub 0 21 = (21, 0) ∧
    (inb 22 (-5) = false ∧
     draw_sun_ws trigStub 0 (-5) 18 (fun _ _ => COL_GRADTOP) 22 (-5) =
       COL_ORANGE ∧
     COL_ORANGE ≠ COL_GRADTOP) :=
  ⟨rfl, C1_draw_sun_ws_oob trigStub rfl⟩

/- ── C10: trailing --screenshot handling ──────────────────────────── -/

/-- Invariant of the argument loop on a suffix that ends with a trailing
--screenshot flag: when the prefix contains neither --screenshot (which
would consume the next argument as a path) nor --help (which
early-returns), the loop ends in the run state with the screenshot slot
unchanged and no_ansi accumulated from the prefix. -/
lemma parse_args_trailing (pre : List String) (shot : Option String)
    (na : Bool) (hss : "--screenshot" ∉ pre) (hh : "--help" ∉ pre) :
    parse_args (pre ++ ["--screenshot"]) shot na =
      .run shot (na || pre.contains "--no-ansi") := by
  induction pre generalizing na with
  | nil => simp [parse_args]
  | cons a pre ih =>
      have ha1 : a ≠ "--screenshot" := fun hc => hss (hc ▸ List.mem_cons_self a pre)
      have ha3 : a ≠ "--help" := fun hc => hh (hc ▸ List.mem_cons_self a pre)
      have hss2 : "--screenshot" ∉ pre := fun hc => hss (List.mem_cons_of_mem a hc)
      have hh2 : "--help" ∉ pre := fun hc => hh (List.mem_cons_of_mem a hc)
      rw [List.cons_append, parse_args.eq_def]
      simp only [if_neg ha1]
      by_cases ha2 : a = "--no-ansi"
      · subst ha2
        rw [if_pos rfl, ih true hss2 hh2]
        have hc : ("--no-ansi" :: pre).contains "--no-ansi" = true := by
          rw [List.contains_cons,
            show ("--no-ansi" == "--no-ansi") = true from beq_self_eq_true _,
            Bool.true_or]
        rw [hc, Bool.true_or, Bool.or_true]
      · rw [if_neg ha2, if_neg ha3, ih na hss2 hh2]
        have hd : decide ("--no-ansi" = a) = false :=
          decide_eq_false (fun hc => ha2 hc.symm)
        simp [List.contains_cons, hd]

/-- C10: counterexample.  In the argument list
["--screenshot", "--screenshot"] the flag --screenshot appears as the
final command-line argument with no path following it, yet it is not
ignored: the first occurrence consumes it as the path operand, so a
raster-file export to the file named "--screenshot" is attempted. -/
theorem C10_counterexample :
    (main_model ["--screenshot", "--screenshot"] (fun _ => true)).pngArg =
      some "--screenshot" := by
  rfl

/-- C10 (amended): if --screenshot is the final command-line argument and
no earlier argument is --screenshot (so the final flag sits in a flag
position and no export was configured earlier) or --help, the trailing
flag is silently ignored: no raster-file export is attempted, the process
exits with code 0, and the terminal export runs unless --no-ansi appears
among the earlier arguments. -/
theorem C10_trailing_screenshot_ignored (pre : List String)
    (pngOk : String → Bool) (hss : "--screenshot" ∉ pre)
    (hh : "--help" ∉ pre) :
    (main_model (pre ++ ["--screenshot"]) pngOk).pngArg = none ∧
    (main_model (pre ++ ["--screenshot"]) pngOk).exitCode = 0 ∧
    (main_model (pre ++ ["--screenshot"]) pngOk).ansiRan =
      !(pre.contains "--no-ansi") := by
  unfold main_model
  rw [parse_args_trailing pre none false hss hh]
  simp

/-- Witness for C10_trailing_screenshot_ignored with prefix
["--no-ansi"]. -/
theorem C10_trailing_screenshot_ignored_witness :
    "--screenshot" ∉ ["--no-ansi"] ∧ "--help" ∉ ["--no-ansi"] ∧
    ((main_model (["--no-ansi"] ++ ["--screenshot"])
        (fun _ => true)).pngArg = none ∧
     (main_model (["--no-ansi"] ++ ["--screenshot"])
        (fun _ => true)).exitCode = 0 ∧
     (main_model (["--no-ansi"] ++ ["--screenshot"])
        (fun _ => true)).ansiRan = !(["--no-ansi"].contains "--no-ansi")) :=
  ⟨by decide, by decide,
    C10_trailing_screenshot_ignored ["--no-ansi"] (fun _ => true)
      (by decide) (by decide)⟩

/- ── C6: gradient rectangle first and last rows ───────────────────── -/

/-- First row of the vertical gradient: t = 0, so the channel is the
exact top value. -/
lemma gradVChan_first (top bot y0 h : ℤ) (hh : 1 < h) :
    gradVChan top bot y0 h y0 = top := by
  unfold gradVChan
  rw [if_pos hh,
    show top * (h - 1) + (bot - top) * (y0 - y0) = top * (h - 1) from by ring]
  exact Int.mul_tdiv_cancel top (by omega)

/-- Last row of the vertical gradient: t = 1 exactly (the float quotient
(h-1)/(h-1) is exactly 1.0), so the channel is the exact bottom value. -/
lemma gradVChan_last (top bot y0 h : ℤ) (hh : 1 < h) :
    gradVChan top bot y0 h (y0 + h - 1) = bot := by
  unfold gradVChan
  rw [if_pos hh,
    show top * (h - 1) + (bot - top) * (y0 + h - 1 - y0) = bot * (h - 1)
      from by ring]
  exact Int.mul_tdiv_cancel bot (by omega)

/-- Colour version of gradVChan_first. -/
lemma gradVColor_first (top bot : rgb) (y0 h : ℤ) (hh : 1 < h) :
    gradVColor top bot y0 h y0 = top := by
  cases top
  cases bot
  simp [gradVColor, gradVChan_first _ _ _ _ hh]

/-- Colour version of gradVChan_last. -/
lemma gradVColor_last (top bot : rgb) (y0 h : ℤ) (hh : 1 < h) :
    gradVColor top bot y0 h (y0 + h - 1) = bot := by
  cases top
  cases bot
  simp [gradVColor, gradVChan_last _ _ _ _ hh]

/-- Degenerate height h = 1: the guard h > 1 fails, t stays 0, and every
row of the rectangle gets the exact top colour. -/
lemma gradVColor_one (top bot : rgb) (y0 y : ℤ) :
    gradVColor top bot y0 1 y = top := by
  cases top
  cases bot
  simp [gradVColor, gradVChan]

/-- C6: for a fully in-bounds rectangle drawn by fb_rect_grad_v with
height h > 1, every pixel of the first row equals the top colour exactly
and every pixel of the last row equals the bottom colour exactly; for
h = 1 every pixel of the (single) row equals the top colour. -/
theorem C6_gradient_rect_rows (x0 y0 w h : ℤ) (top bot : rgb) (fb : Fb)
    (hx0 : 0 ≤ x0) (hx1 : x0 + w ≤ 640) (hy0 : 0 ≤ y0)
    (hy1 : y0 + h ≤ 400) :
    (1 < h → ∀ x, x0 ≤ x → x < x0 + w →
      fb_rect_grad_v x0 y0 w h top bot fb x y0 = top ∧
      fb_rect_grad_v x0 y0 w h top bot fb x (y0 + h - 1) = bot) ∧
    (h = 1 → ∀ x, x0 ≤ x → x < x0 + w →
      fb_rect_grad_v x0 y0 w h top bot fb x y0 = top) := by
  constructor
  · intro hh x ha hb
    have hhit1 : rectHit x0 y0 w h x y0 = true := by
      simp only [rectHit, inb, FBW, FBH, Bool.and_eq_true, decide_eq_true_eq]
      omega
    have hhit2 : rectHit x0 y0 w h x (y0 + h - 1) = true := by
      simp only [rectHit, inb, FBW, FBH, Bool.and_eq_true, decide_eq_true_eq]
      omega
    constructor
    · simp only [fb_rect_grad_v, upd, hhit1, if_true]
      exact gradVColor_first top bot y0 h hh
    · simp only [fb_rect_grad_v, upd, hhit2, if_true]
      exact gradVColor_last top bot y0 h hh
  · intro hh x ha hb
    subst hh
    have hhit1 : rectHit x0 y0 w 1 x y0 = true := by
      simp only [rectHit, inb, FBW, FBH, Bool.and_eq_true, decide_eq_true_eq]
      omega
    simp only [fb_rect_grad_v, upd, hhit1, if_true]
    exact gradVColor_one top bot y0 y0

/-- Witness for C6_gradient_rect_rows on the header banner rectangle. -/
theorem C6_gradient_rect_rows_witness :
    (0 : ℤ) ≤ 0 ∧ (0 : ℤ) + 640 ≤ 640 ∧ (0 : ℤ) ≤ 4 ∧ (4 : ℤ) + 36 ≤ 400 ∧
    ((1 < (36 : ℤ) → ∀ x, 0 ≤ x → x < 0 + 640 →
       fb_rect_grad_v 0 4 640 36 COL_HEADER ⟨30, 55, 140⟩ fbZero x 4 =
         COL_HEADER ∧
       fb_rect_grad_v 0 4 640 36 COL_HEADER ⟨30, 55, 140⟩ fbZero x
           (4 + 36 - 1) = ⟨30, 55, 140⟩) ∧
     ((36 : ℤ) = 1 → ∀ x, 0 ≤ x → x < 0 + 640 →
       fb_rect_grad_v 0 4 640 36 COL_HEADER ⟨30, 55, 140⟩ fbZero x 4 =
         COL_HEADER)) :=
  ⟨by norm_num, by norm_num, by norm_num, by norm_num,
    C6_gradient_rect_rows 0 4 640 36 COL_HEADER ⟨30, 55, 140⟩ fbZero
      (by norm_num) (by norm_num) (by norm_num) (by norm_num)⟩

/- ── C4: rounded rectangle over the cleared background ────────────── -/

/-- Corner-cut condition in the words of the spec: the pixel (x, y) is a
corner-block pixel at some offsets (dx, dy) in [0, r) x [0, r) of one of
the four corners, with (r-dx)^2 + (r-dy)^2 > r^2. -/
def spec_corner_cut (x0 y0 w h r x y : ℤ) : Prop :=
  ∃ dx dy : ℤ, 0 ≤ dx ∧ dx < r ∧ 0 ≤ dy ∧ dy < r ∧ farFromArc r dx dy ∧
    ((x = x0 + dx ∧ y = y0 + dy) ∨
     (x = x0 + w - 1 - dx ∧ y = y0 + dy) ∨
     (x = x0 + dx ∧ y = y0 + h - 1 - dy) ∨
     (x = x0 + w - 1 - dx ∧ y = y0 + h - 1 - dy))

/-- Unfolding of the implementation corner predicate into propositions. -/
lemma knockHit_iff (x0 y0 w h r x y : ℤ) :
    knockHit x0 y0 w h r x y = true ↔
      ((0 ≤ x - x0 ∧ x - x0 < r ∧ 0 ≤ y - y0 ∧ y - y0 < r ∧
          farFromArc r (x - x0) (y - y0)) ∨
       (0 ≤ x0 + w - 1 - x ∧ x0 + w - 1 - x < r ∧ 0 ≤ y - y0 ∧
          y - y0 < r ∧ farFromArc r (x0 + w - 1 - x) (y - y0)) ∨
       (0 ≤ x - x0 ∧ x - x0 < r ∧ 0 ≤ y0 + h - 1 - y ∧
          y0 + h - 1 - y < r ∧ farFromArc r (x - x0) (y0 + h - 1 - y)) ∨
       (0 ≤ x0 + w - 1 - x ∧ x0 + w - 1 - x < r ∧ 0 ≤ y0 + h - 1 - y ∧
          y0 + h - 1 - y < r ∧
          farFromArc r (x0 + w - 1 - x) (y0 + h - 1 - y))) ∧
      inb x y = true := by
  simp [knockHit, Bool.and_eq_true, Bool.or_eq_true, decide_eq_true_eq,
    or_assoc, and_assoc]

/-- Equivalence of the spec-worded corner-cut condition with the
disjunction tested by the implementation: each corner formula is solved
for (dx, dy) deterministically. -/
lemma spec_corner_cut_iff (x0 y0 w h r x y : ℤ) :
    spec_corner_cut x0 y0 w h r x y ↔
      ((0 ≤ x - x0 ∧ x - x0 < r ∧ 0 ≤ y - y0 ∧ y - y0 < r ∧
          farFromArc r (x - x0) (y - y0)) ∨
       (0 ≤ x0 + w - 1 - x ∧ x0 + w - 1 - x < r ∧ 0 ≤ y - y0 ∧
          y - y0 < r ∧ farFromArc r (x0 + w - 1 - x) (y - y0)) ∨
       (0 ≤ x - x0 ∧ x - x0 < r ∧ 0 ≤ y0 + h - 1 - y ∧
          y0 + h - 1 - y < r ∧ farFromArc r (x - x0) (y0 + h - 1 - y)) ∨
       (0 ≤ x0 + w - 1 - x ∧ x0 + w - 1 - x < r ∧ 0 ≤ y0 + h - 1 - y ∧
          y0 + h - 1 - y < r ∧
          farFromArc r (x0 + w - 1 - x) (y0 + h - 1 - y))) := by
  constructor
  · rintro ⟨dx, dy, h1, h2, h3, h4, hfar, hpos⟩
    rcases hpos with ⟨hx, hy⟩ | ⟨hx, hy⟩ | ⟨hx, hy⟩ | ⟨hx, hy⟩
    · left
      have e1 : x - x0 = dx := by omega
      have e2 : y - y0 = dy := by omega
      rw [e1, e2]
      exact ⟨h1, h2, h3, h4, hfar⟩
    · right; left
      have e1 : x0 + w - 1 - x = dx := by omega
      have e2 : y - y0 = dy := by omega
      rw [e1, e2]
      exact ⟨h1, h2, h3, h4, hfar⟩
    · right; right; left
      have e1 : x - x0 = dx := by omega
      have e2 : y0 + h - 1 - y = dy := by omega
      rw [e1, e2]
      exact ⟨h1, h2, h3, h4, hfar⟩
    · right; right; right
      have e1 : x0 + w - 1 - x = dx := by omega
      have e2 : y0 + h - 1 - y = dy := by omega
      rw [e1, e2]
      exact ⟨h1, h2, h3, h4, hfar⟩
  · rintro (⟨h1, h2, h3, h4, hfar⟩ | ⟨h1, h2, h3, h4, hfar⟩ |
      ⟨h1, h2, h3, h4, hfar⟩ | ⟨h1, h2, h3, h4, hfar⟩)
    · exact ⟨x - x0, y - y0, h1, h2, h3, h4, hfar,
        Or.inl ⟨by omega, by omega⟩⟩
    · exact ⟨x0 + w - 1 - x, y - y0, h1, h2, h3, h4, hfar,
        Or.inr (Or.inl ⟨by omega, by omega⟩)⟩
    · exact ⟨x - x0, y0 + h - 1 - y, h1, h2, h3, h4, hfar,
        Or.inr (Or.inr (Or.inl ⟨by omega, by omega⟩))⟩
    · exact ⟨x0 + w - 1 - x, y0 + h - 1 - y, h1, h2, h3, h4, hfar,
        Or.inr (Or.inr (Or.inr ⟨by omega, by omega⟩))⟩

/-- C4: applying draw_rounded_rect to a canvas freshly filled by fb_clear,
with the rectangle fully in bounds, leaves every in-rectangle pixel that
satisfies the corner-cut condition (some corner offsets (dx, dy) in
[0, r)^2 with (r-dx)^2 + (r-dy)^2 > r^2) equal to the background-gradient
colour at its absolute row, and every other pixel of the rectangle equal
to the fill colour. -/
theorem C4_rounded_rect_on_background (x0 y0 w h r : ℤ) (fill : rgb)
    (fb0 : Fb) (hx0 : 0 ≤ x0) (hx1 : x0 + w ≤ 640) (hy0 : 0 ≤ y0)
    (hy1 : y0 + h ≤ 400) :
    ∀ x y, x0 ≤ x → x < x0 + w → y0 ≤ y → y < y0 + h →
      (spec_corner_cut x0 y0 w h r x y →
        draw_rounded_rect x0 y0 w h r fill (fb_clear fb0) x y =
          fb_bg_at y) ∧
      (¬ spec_corner_cut x0 y0 w h r x y →
        draw_rounded_rect x0 y0 w h r fill (fb_clear fb0) x y = fill) := by
  intro x y hx hxw hy hyh
  have hinb : inb x y = true := by
    simp only [inb, FBW, FBH, decide_eq_true_eq]
    omega
  constructor
  · intro hcut
    have hknock : knockHit x0 y0 w h r x y = true :=
      (knockHit_iff x0 y0 w h r x y).mpr
        ⟨(spec_corner_cut_iff x0 y0 w h r x y).mp hcut, hinb⟩
    simp [draw_rounded_rect, upd, hknock]
  · intro hncut
    have hkf : knockHit x0 y0 w h r x y = false := by
      rw [Bool.eq_false_iff]
      intro ht
      exact hncut ((spec_corner_cut_iff x0 y0 w h r x y).mpr
        ((knockHit_iff x0 y0 w h r x y).mp ht).1)
    have hrect : rectHit x0 y0 w h x y = true := by
      simp only [rectHit, inb, FBW, FBH, Bool.and_eq_true, decide_eq_true_eq]
      omega
    simp [draw_rounded_rect, fb_rect, upd, hkf, hrect]

/-- Witness for C4_rounded_rect_on_background on the conditions card. -/
theorem C4_rounded_rect_on_background_witness :
    (0 : ℤ) ≤ 20 ∧ (20 : ℤ) + 600 ≤ 640 ∧ (0 : ℤ) ≤ 104 ∧
    (104 : ℤ) + 140 ≤ 400 ∧
    (∀ x y, (20 : ℤ) ≤ x → x < 20 + 600 → (104 : ℤ) ≤ y → y < 104 + 140 →
      (spec_corner_cut 20 104 600 140 6 x y →
        draw_rounded_rect 20 104 600 140 6 ⟨15, 25, 90⟩ (fb_clear fbZero)
            x y = fb_bg_at y) ∧
      (¬ spec_corner_cut 20 104 600 140 6 x y →
        draw_rounded_rect 20 104 600 140 6 ⟨15, 25, 90⟩ (fb_clear fbZero)
            x y = ⟨15, 25, 90⟩)) :=
  ⟨by norm_num, by norm_num, by norm_num, by norm_num,
    C4_rounded_rect_on_background 20 104 600 140 6 ⟨15, 25, 90⟩ fbZero
      (by norm_num) (by norm_num) (by norm_num) (by norm_num)⟩

/- ── C2: composer purity and determinism ──────────────────────────── -/

/-- Pointwise congruence of upd: none of the drawing loops reads the
framebuffer, so the updated value at a pixel depends on the previous
framebuffer only through that same pixel. -/
lemma upd_congr (c : ℤ → ℤ → Bool) (v : ℤ → ℤ → rgb) (fb fb' : Fb)
    (x y : ℤ) (h : fb x y = fb' x y) :
    upd c v fb x y = upd c v fb' x y := by
  unfold upd
  rw [h]

/-- Pointwise congruence of fb_string, by induction over the string. -/
lemma fb_string_congr (s : List Char) (px py : ℤ) (fg : rgb) (sc : ℤ)
    (fb fb' : Fb) (x y : ℤ) (h : fb x y = fb' x y) :
    fb_string px py s fg sc fb x y = fb_string px py s fg sc fb' x y := by
  induction s generalizing px fb fb' with
  | nil => simpa [fb_string] using h
  | cons c cs ih =>
      simp only [fb_string]
      exact ih _ _ _ (upd_congr _ _ _ _ x y h)

/-- Value of fb_clear at an in-bounds pixel: the background gradient of
the row, independent of the previous framebuffer contents. -/
lemma fb_clear_inb (fb : Fb) (x y : ℤ) (h0 : 0 ≤ x) (h1 : x < 640)
    (h2 : 0 ≤ y) (h3 : y < 400) : fb_clear fb x y = fb_bg_at y := by
  have hb : inb x y = true := by
    simp only [inb, FBW, FBH, decide_eq_true_eq]
    omega
  simp [fb_clear, upd, hb]

set_option maxRecDepth 8000 in
set_option maxHeartbeats 2000000 in
/-- C2: the scene composer is a pure function of its supplied data — for
one fixed weather/time input (the time and date strings and the libm ray
offsets), any two compositions agree pixel for pixel on the whole canvas,
whatever the previous framebuffer contents were.  The composer performs
no reads of the framebuffer and no output; fb_clear overwrites every
in-bounds pixel first, and every later primitive writes values depending
only on coordinates and inputs. -/
theorem C2_compose_deterministic (timebuf datebuf : List Char)
    (trig : SunTrig) (fb1 fb2 : Fb) (x y : ℤ) (h0 : 0 ≤ x) (h1 : x < 640)
    (h2 : 0 ≤ y) (h3 : y < 400) :
    compose_display timebuf datebuf trig fb1 x y =
      compose_display timebuf datebuf trig fb2 x y := by
  have hclear : ∀ fb fb' : Fb, fb_clear fb x y = fb_clear fb' x y :=
    fun fb fb' => by
      rw [fb_clear_inb fb x y h0 h1 h2 h3, fb_clear_inb fb' x y h0 h1 h2 h3]
  simp only [compose_display, forecastBox, fb_rect, fb_rect_grad_v,
    fb_hline, draw_rounded_rect, draw_sun, draw_cloud, fb_degree,
    fb_string_centered]
  repeat
    first
    | exact hclear _ _
    | apply upd_congr
    | apply fb_string_congr

/-- Witness for C2_compose_deterministic at pixel (0, 0) with two
different initial framebuffers. -/
theorem C2_compose_deterministic_witness :
    (0 : ℤ) ≤ 0 ∧ (0 : ℤ) < 640 ∧
    compose_display ("08:30 PM".toList) [] trigStub fbZero 0 0 =
      compose_display ("08:30 PM".toList) [] trigStub
        (fun _ _ => COL_WHITE) 0 0 :=
  ⟨by norm_num, by norm_num,
    C2_compose_deterministic ("08:30 PM".toList) [] trigStub fbZero
      (fun _ _ => COL_WHITE) 0 0 (by norm_num) (by norm_num) (by norm_num)
      (by norm_num)⟩

/- ── C8: ANSI terminal export (screenshot.h ansi_output) ──────────── -/

/-- Reset sequence ESC [ 0 m emitted at the end of each line and at the
end of the output. -/
def resetSeq : List Char := "\x1b[0m".toList

/-- Cursor-home plus clear-screen prefix ESC [ H ESC [ 2 J. -/
def clearSeq : List Char := "\x1b[H\x1b[2J".toList

/-- Foreground SGR sequence ESC [ 38 ; 2 ; R ; G ; B m of one cell. -/
def sgrFg (c : rgb) : List Char :=
  "\x1b[38;2;".toList ++ (toString c.r).toList ++ ";".toList ++
  (toString c.g).toList ++ ";".toList ++ (toString c.b).toList ++
  "m".toList

/-- Background SGR sequence ESC [ 48 ; 2 ; R ; G ; B m of one cell. -/
def sgrBg (c : rgb) : List Char :=
  "\x1b[48;2;".toList ++ (toString c.r).toList ++ ";".toList ++
  (toString c.g).toList ++ ";".toList ++ (toString c.b).toList ++
  "m".toList

/-- Upper-half-block glyph U+2580, written by the C code as the UTF-8
bytes 0xE2 0x96 0x80. -/
def halfBlockSeq : List Char := ['▀']

/-- One terminal cell of ansi_output: foreground is the top pixel of the
row pair, background is the pixel below it (the C ternary falls back to
the top pixel when y + 1 would leave the framebuffer), then the
half-block glyph. -/
def ansiCell (fb : Fb) (x yl : ℕ) : List Char :=
  let top := fb (x : ℤ) (yl : ℤ)
  let bot := if yl + 1 < 400 then fb (x : ℤ) ((yl : ℤ) + 1) else top
  sgrFg top ++ sgrBg bot ++ halfBlockSeq

/-- Inner column loop of ansi_output: appends the cells for x = 0..639
into the line buffer, exactly like the C snprintf accumulation. -/
def ansiCells (fb : Fb) (yl : ℕ) : ℕ → List Char → List Char
  | x, acc =>
    if x < 640 then ansiCells fb yl (x + 1) (acc ++ ansiCell fb x yl)
    else acc
termination_by x _ => 640 - x
decreasing_by omega

/-- One output line: the 640 cells, the reset sequence, and the newline
appended before the line buffer is flushed. -/
def ansiLine (fb : Fb) (yl : ℕ) : List Char :=
  ansiCells fb yl 0 [] ++ resetSeq ++ ['\n']

/-- Outer row loop of ansi_output: steps y by 2 from 0 while y < 400,
appending one line per iteration. -/
def ansiRows (fb : Fb) : ℕ → List Char → List Char
  | yl, acc =>
    if yl < 400 then ansiRows fb (yl + 2) (acc ++ ansiLine fb yl)
    else acc
termination_by yl _ => 400 - yl
decreasing_by omega

/-- ansi_output of screenshot.h as the emitted character stream: the
clear-screen prefix, the accumulated lines, and the final reset. -/
def ansi_output (fb : Fb) : List Char :=
  clearSeq ++ ansiRows fb 0 [] ++ resetSeq

/-- Closed form of the column loop: the cells of columns x, x+1, ..., 639
in order. -/
lemma ansiCells_spec (fb : Fb) (yl : ℕ) :
    ∀ n x acc, x + n = 640 →
      ansiCells fb yl x acc =
        acc ++ ((List.range n).map fun j => ansiCell fb (x + j) yl).flatten := by
  intro n
  induction n with
  | zero =>
      intro x acc hx
      rw [ansiCells]
      simp [show ¬ x < 640 from by omega]
  | succ n ih =>
      intro x acc hx
      rw [ansiCells, if_pos (by omega), ih (x + 1) _ (by omega),
        List.range_succ_eq_map]
      simp only [List.map_cons, List.map_map, List.flatten_cons,
        Nat.add_zero, List.append_assoc]
      rw [List.map_congr_left
        (fun j _ => show ansiCell fb (x + 1 + j) yl =
            ansiCell fb (x + Nat.succ j) yl from by
          rw [show x + 1 + j = x + Nat.succ j from by omega])]
      rfl

/-- Closed form of the row loop: one line per row pair y = 2j. -/
lemma ansiRows_spec (fb : Fb) :
    ∀ n yl acc, yl + 2 * n = 400 →
      ansiRows fb yl acc =
        acc ++ ((List.range n).map fun j => ansiLine fb (yl + 2 * j)).flatten := by
  intro n
  induction n with
  | zero =>
      intro yl acc hy
      rw [ansiRows]
      simp [show ¬ yl < 400 from by omega]
  | succ n ih =>
      intro yl acc hy
      rw [ansiRows, if_pos (by omega), ih (yl + 2) _ (by omega),
        List.range_succ_eq_map]
      simp only [List.map_cons, List.map_map, List.flatten_cons,
        Nat.mul_zero, Nat.add_zero, List.append_assoc]
      rw [List.map_congr_left
        (fun j _ => show ansiLine fb (yl + 2 + 2 * j) =
            ansiLine fb (yl + 2 * Nat.succ j) from by
          rw [show yl + 2 + 2 * j = yl + 2 * Nat.succ j from by omega])]
      rfl

/-- One line in terms of pixel colours: for a line index k < 200 the cell
at column x has foreground fb x (2k) and background fb x (2k+1). -/
lemma ansiLine_spec (fb : Fb) (k : ℕ) (hk : k < 200) :
    ansiLine fb (2 * k) =
      ((List.range 640).map fun (x : ℕ) =>
        sgrFg (fb x (2 * k : ℤ)) ++
        sgrBg (fb x ((2 * k : ℤ) + 1)) ++ halfBlockSeq).flatten ++
      resetSeq ++ ['\n'] := by
  unfold ansiLine
  rw [ansiCells_spec fb (2 * k) 640 0 [] (by omega), List.nil_append]
  rw [List.map_congr_left (fun j hj => show ansiCell fb (0 + j) (2 * k) =
      sgrFg (fb j (2 * k : ℤ)) ++
      sgrBg (fb j ((2 * k : ℤ) + 1)) ++ halfBlockSeq from by
    simp only [ansiCell]
    rw [if_pos (by omega), Nat.zero_add,
      show ((2 * k : ℕ) : ℤ) = (2 * k : ℤ) from by push_cast; ring])]

/-- C8: the terminal export emits the clear prefix, then exactly 200 =
ceil(400/2) lines — one per adjacent row pair (2k, 2k+1) — where each
line is, for every column x in order, one cell whose foreground colour is
the top pixel fb x (2k) and whose background colour is the bottom pixel
fb x (2k+1) followed by the upper-half-block glyph; each line ends with
the styling reset and a newline, and the whole output ends with a final
styling reset. -/
theorem C8_ansi_output_structure (fb : Fb) :
    ansi_output fb =
      clearSeq ++
        ((List.range 200).map fun (k : ℕ) =>
          ((List.range 640).map fun (x : ℕ) =>
            sgrFg (fb x (2 * k : ℤ)) ++
            sgrBg (fb x ((2 * k : ℤ) + 1)) ++
            halfBlockSeq).flatten ++
          resetSeq ++ ['\n']).flatten ++ resetSeq := by
  unfold ansi_output
  rw [ansiRows_spec fb 200 0 [] (by norm_num), List.nil_append]
  rw [List.map_congr_left (fun j hj => show ansiLine fb (0 + 2 * j) =
      ((List.range 640).map fun (x : ℕ) =>
        sgrFg (fb x (2 * j : ℤ)) ++
        sgrBg (fb x ((2 * j : ℤ) + 1)) ++ halfBlockSeq).flatten ++
      resetSeq ++ ['\n'] from by
    rw [Nat.zero_add]
    exact ansiLine_spec fb j (List.mem_range.mp hj))]

/- ── C9: the fixed end-to-end scene ───────────────────────────────── -/

/-- Pixel outside the hit set: an upd leaves it unchanged. -/
lemma upd_miss (c : ℤ → ℤ → Bool) (v : ℤ → ℤ → rgb) (fb : Fb) (x y : ℤ)
    (h : c x y = false) : upd c v fb x y = fb x y := by
  simp [upd, h]

/-- Pixel inside the hit set: an upd stores the value function there. -/
lemma upd_hit (c : ℤ → ℤ → Bool) (v : ℤ → ℤ → rgb) (fb : Fb) (x y : ℤ)
    (h : c x y = true) : upd c v fb x y = v x y := by
  simp [upd, h]

/-- A glyph blit touches no pixel left of its pen position (glyph blocks
extend only rightward for positive scales, and the sub-pixel loops are
empty for non-positive scales). -/
lemma charHit_miss_left (px py : ℤ) (ch : Char) (sc x y : ℤ)
    (hsc : 1 ≤ sc) (hx : x < px) : charHit px py ch sc x y = false := by
  rw [Bool.eq_false_iff]
  intro ht
  unfold charHit at ht
  rw [List.any_eq_true] at ht
  obtain ⟨row, hrow, ht⟩ := ht
  rw [List.any_eq_true] at ht
  obtain ⟨col, hcol, ht⟩ := ht
  simp only [Bool.and_eq_true, decide_eq_true_eq] at ht
  have hcol0 : (0 : ℤ) ≤ (col : ℤ) * sc :=
    mul_nonneg (Int.natCast_nonneg col) (by omega)
  omega

/-- A string draw touches no pixel left of its starting pen position. -/
lemma fb_string_miss (px py : ℤ) (s : List Char) (fg : rgb) (sc : ℤ)
    (fb : Fb) (x y : ℤ) (hsc : 1 ≤ sc) (hx : x < px) :
    fb_string px py s fg sc fb x y = fb x y := by
  induction s generalizing px fb with
  | nil => rfl
  | cons c cs ih =>
      simp only [fb_string]
      rw [ih (px + 6 * sc) _ (by omega), fb_char,
        upd_miss _ _ _ _ _ (charHit_miss_left px py c sc x y hsc hx)]

/-- The sun icon with radius 18 touches no pixel more than 27 columns
left of its centre: the body circle reaches 18 columns out, and every ray
store lands within the offset bound |cos| * d <= d <= 27 (plus one column
rightward for the thickening store). -/
lemma draw_sun_miss_left (trig : SunTrig) (htrig : SunTrigBound trig)
    (cx cy x y : ℤ) (hx : x < cx - 27) (fb : Fb) :
    draw_sun trig cx cy 18 fb x y = fb x y := by
  have hc : circleHit cx cy 18 x y = false := by
    rw [Bool.eq_false_iff]
    intro ht
    simp only [circleHit, Bool.and_eq_true, decide_eq_true_eq] at ht
    omega
  have hr : rayHit trig cx cy 18 x y = false := by
    rw [Bool.eq_false_iff]
    intro ht
    unfold rayHit at ht
    rw [List.any_eq_true] at ht
    obtain ⟨i, hi, ht⟩ := ht
    rw [List.any_eq_true] at ht
    obtain ⟨j, hj, ht⟩ := ht
    have hj7 : j < 7 := List.mem_range.mp hj
    have hj0 : (0 : ℤ) ≤ (j : ℤ) := Int.natCast_nonneg j
    have hj6 : (j : ℤ) ≤ 6 := by exact_mod_cast Nat.le_of_lt_succ hj7
    obtain ⟨b1, b2, b3, b4⟩ := htrig i (18 + 3 + (j : ℤ)) (by omega)
    simp only [Bool.or_eq_true, Bool.and_eq_true, decide_eq_true_eq, inb,
      FBW, FBH] at ht
    rcases ht with ⟨⟨hx1, hy1⟩, _⟩ | ⟨⟨hx1, hy1⟩, _⟩ <;> omega
  simp [draw_sun, upd, hr, hc]

/-- Bound fact for the trig stub. -/
lemma trigStub_bound : SunTrigBound trigStub := by
  intro i d hd
  simp only [trigStub]
  omega

set_option maxRecDepth 8000 in
set_option maxHeartbeats 2000000 in
/-- C9: composing the full scene with the fixed hardcoded inputs
(San Francisco CA, 62 F Partly Cloudy, the SAT/SUN/MON/TUE/WED forecast
with highs 68/65/58/61/70 and lows 52/50/48/49/54) and the supplied time
buffer "08:30 PM" yields a canvas whose pixel at row 0, column 0 is the
gold accent colour, whose pixel at row 5, column 0 is the header-gradient
colour of that row, and whose status-bar time string is rendered from
"8:30 PM" — the leading zero of the 12-hour value stripped before
rendering. -/
theorem C9_fixed_scene (trig : SunTrig) (datebuf : List Char)
    (htrig : SunTrigBound trig) :
    compose_display ("08:30 PM".toList) datebuf trig fbZero 0 0 =
      COL_GOLD ∧
    compose_display ("08:30 PM".toList) datebuf trig fbZero 0 5 =
      gradVColor COL_HEADER ⟨30, 55, 140⟩ 4 36 5 ∧
    strip0 ("08:30 PM".toList) = "8:30 PM".toList := by
  have hsun0 : ∀ (cy : ℤ) (fb : Fb), draw_sun trig 90 cy 18 fb 0 0 = fb 0 0 :=
    fun cy fb => draw_sun_miss_left trig htrig 90 cy 0 0 (by norm_num) fb
  have hsun5 : ∀ (cy : ℤ) (fb : Fb), draw_sun trig 90 cy 18 fb 0 5 = fb 0 5 :=
    fun cy fb => draw_sun_miss_left trig htrig 90 cy 0 5 (by norm_num) fb
  refine ⟨?_, ?_, by decide⟩
  · simp +decide only [compose_display, forecastBox, fb_string_centered,
      fb_clear, fb_rect, fb_rect_grad_v, fb_hline, draw_rounded_rect,
      draw_cloud, fb_degree, upd_miss, upd_hit, fb_string_miss, hsun0]
  · simp +decide only [compose_display, forecastBox, fb_string_centered,
      fb_clear, fb_rect, fb_rect_grad_v, fb_hline, draw_rounded_rect,
      draw_cloud, fb_degree, upd_miss, upd_hit, fb_string_miss, hsun5]

/-- Witness for C9_fixed_scene using the trig stub. -/
theorem C9_fixed_scene_witness :
    SunTrigBound trigStub ∧
    (compose_display ("08:30 PM".toList) [] trigStub fbZero 0 0 =
       COL_GOLD ∧
     compose_display ("08:30 PM".toList) [] trigStub fbZero 0 5 =
       gradVColor COL_HEADER ⟨30, 55, 140⟩ 4 36 5 ∧
     strip0 ("08:30 PM".toList) = "8:30 PM".toList) :=
  ⟨trigStub_bound, C9_fixed_scene trigStub [] trigStub_bound⟩

end WeatherStar
